import Mathlib

/-!
Verification of the vocabulary-flashcards client-side state and persistence
engine: the card reducer (src/contexts/CardContext.tsx, listed in TESTING.md),
the selectors (src/utils/cardSelectors.ts), the bulk-import parser
(src/utils/bulkImport.ts, shipped alongside cardSelectors.ts) and the
LocalStorage adapter (src/hooks/useLocalStorage.ts).

The TypeScript code is embedded shallowly: JavaScript strings are Lean
strings, and the JavaScript string primitives used by the parser
(String.prototype.split with a one-character separator, trim, includes)
are modelled by executable functions on the character list of the string,
so that every definition evaluates inside the kernel.  JavaScript numbers
appearing as array indices are modelled by Nat at rest and by Int where the
code does signed arithmetic (the NAVIGATE clamp).  Optional object fields
are modelled by Option; an absent field is none.
-/

namespace Flashcards

/-! ## JavaScript string primitives -/

/-- Model of splitting a character list at every occurrence of a separator
character.  Mirrors String.prototype.split with a one-character separator:
the result is never empty, and separators at the ends produce empty
fields. -/
def splitCharList (sep : Char) : List Char → List (List Char)
  | [] => [[]]
  | c :: rest =>
    match splitCharList sep rest with
    | [] => [[]]
    | h :: t => if c = sep then [] :: h :: t else (c :: h) :: t

/-- Model of JavaScript text.split(sep) for a one-character separator. -/
def jsSplit (sep : Char) (s : String) : List String :=
  (splitCharList sep s.toList).map (fun l => String.mk l)

/-- Whitespace characters stripped by String.prototype.trim (ASCII part,
which is all the repository ever feeds it). -/
def isJsWhitespace (c : Char) : Bool :=
  c = ' ' || c = '\t' || c = '\n' || c = '\r' || c = '\x0b' || c = '\x0c'

/-- Model of JavaScript text.trim(). -/
def jsTrim (s : String) : String :=
  String.mk (((s.toList.dropWhile isJsWhitespace).reverse.dropWhile isJsWhitespace).reverse)

/-- Model of JavaScript text.includes(c) for a one-character needle. -/
def jsIncludes (c : Char) (s : String) : Bool :=
  s.toList.contains c

/-! ## Data model (src/types/flashcard.ts)

A Flashcard record.  mastered is declared boolean in the TypeScript
interface, but at runtime the field simply holds whatever the object spread
put there, and the ADD_CARD reducer branch copies it verbatim from the
action payload; Option Bool records presence or absence of the field, with
none for an absent field (JavaScript undefined).  partOfSpeech and
exampleSentences are optional in the interface itself. -/
structure Flashcard where
  id : String
  term : String
  definition : String
  mastered : Option Bool
  createdAt : String
  partOfSpeech : Option String
  exampleSentences : Option (List String)
deriving Repr, DecidableEq

/-- Truthiness of the mastered field as JavaScript sees it: undefined and
false are both falsy. -/
def Flashcard.masteredTruthy (c : Flashcard) : Bool :=
  c.mastered.getD false

/-- The filter enum of CardState. -/
inductive Filter where
  | all
  | needsReview
deriving Repr, DecidableEq

/-- CardState, the root object of the reducer. -/
structure CardState where
  cards : List Flashcard
  filter : Filter
  currentCardIndex : Nat
deriving Repr, DecidableEq

/-- Payload of ADD_CARD: Omit of Flashcard without id and createdAt.  The
mastered field is again Option Bool so that the (ill-typed but
runtime-possible) omission of the field is representable. -/
structure AddPayload where
  term : String
  definition : String
  mastered : Option Bool
  partOfSpeech : Option String
  exampleSentences : Option (List String)
deriving Repr, DecidableEq

/-- Payload of UPDATE_CARD: UpdateFlashcardInput, a Partial of the four
user-editable fields.  none means the field is not provided, so the object
spread leaves the old value in place. -/
structure UpdatePayload where
  term : Option String
  definition : Option String
  partOfSpeech : Option String
  exampleSentences : Option (List String)
deriving Repr, DecidableEq

/-- The discriminated union CardAction. -/
inductive CardAction where
  | addCard (payload : AddPayload)
  | updateCard (id : String) (updates : UpdatePayload)
  | deleteCard (id : String)
  | toggleMastered (id : String)
  | setFilter (f : Filter)
  | navigate (newIndex : Int)
  | shuffleCards
  | bulkImport (cards : List Flashcard)
  | loadCards (cards : List Flashcard)
deriving Repr, DecidableEq

/-- Recogniser for the LOAD_CARDS action. -/
def CardAction.isLoad : CardAction → Bool
  | .loadCards _ => true
  | _ => false

/-- Per-dispatch environment carrying the effects the reducer consumes:
crypto.randomUUID(), new Date().toISOString(), and the random draws of the
shuffle.  choice i models Math.floor(Math.random() * (i + 1)) at loop
index i; a real draw always lies in [0, i]. -/
structure Env where
  newId : String
  newTime : String
  choice : Nat → Nat

/-! ## Fisher-Yates shuffle (SHUFFLE_CARDS branch) -/

/-- Exchange of the entries at positions i and j, the JavaScript
destructuring swap.  Out-of-range positions never arise in the source
because the random index is always in range; the model leaves the list
unchanged there. -/
def listSwap (l : List α) (i j : Nat) : List α :=
  match l[i]?, l[j]? with
  | some a, some b => (l.set i b).set j a
  | _, _ => l

/-- The loop for (let i = length - 1; i > 0; i--) of the shuffle, counting
the loop variable down from the given start value. -/
def fyLoop (choice : Nat → Nat) : Nat → List α → List α
  | 0, l => l
  | i + 1, l => fyLoop choice i (listSwap l (i + 1) (choice (i + 1)))

/-- Fisher-Yates shuffle of a copied list, as in the SHUFFLE_CARDS branch. -/
def fisherYates (choice : Nat → Nat) (l : List α) : List α :=
  fyLoop choice (l.length - 1) l

/-! ## The reducer (cardReducer in src/contexts/CardContext.tsx) -/

/-- Object spread { ...card, ...updates }: every field present in updates
overwrites the card field; absent fields change nothing.  id, createdAt and
mastered do not occur in UpdateFlashcardInput at all. -/
def applyUpdates (card : Flashcard) (u : UpdatePayload) : Flashcard :=
  { card with
    term := u.term.getD card.term
    definition := u.definition.getD card.definition
    partOfSpeech := match u.partOfSpeech with
      | some v => some v
      | none => card.partOfSpeech
    exampleSentences := match u.exampleSentences with
      | some v => some v
      | none => card.exampleSentences }

/-- The pure transition function cardReducer(state, action). -/
def cardReducer (env : Env) (state : CardState) (action : CardAction) : CardState :=
  match action with
  | .addCard payload =>
    let newCard : Flashcard :=
      { id := env.newId
        term := payload.term
        definition := payload.definition
        mastered := payload.mastered
        createdAt := env.newTime
        partOfSpeech := payload.partOfSpeech
        exampleSentences := payload.exampleSentences }
    { state with cards := state.cards ++ [newCard] }
  | .updateCard id updates =>
    { state with
      cards := state.cards.map (fun card =>
        if card.id = id then applyUpdates card updates else card) }
  | .deleteCard cardId =>
    let newCards := state.cards.filter (fun card => card.id != cardId)
    let newIndex :=
      if state.currentCardIndex ≥ newCards.length ∧ newCards.length > 0 then
        newCards.length - 1
      else if newCards.length = 0 then
        0
      else
        state.currentCardIndex
    { state with cards := newCards, currentCardIndex := newIndex }
  | .toggleMastered cardId =>
    { state with
      cards := state.cards.map (fun card =>
        if card.id = cardId then
          { card with mastered := some (!card.masteredTruthy) }
        else card) }
  | .setFilter f =>
    { state with filter := f, currentCardIndex := 0 }
  | .navigate newIndex =>
    let maxIndex : Int := (state.cards.length : Int) - 1
    let clampedIndex : Int := max 0 (min newIndex maxIndex)
    { state with currentCardIndex := clampedIndex.toNat }
  | .shuffleCards =>
    { state with cards := fisherYates env.choice state.cards, currentCardIndex := 0 }
  | .bulkImport cards =>
    { state with cards := state.cards ++ cards }
  | .loadCards cards =>
    { state with cards := cards }

/-- The initial state of a new session. -/
def initialState : CardState :=
  { cards := [], filter := Filter.all, currentCardIndex := 0 }

/-- Folding a sequence of dispatches over a state, each with its own
environment of generated ids, timestamps and random draws. -/
def runTrace (steps : List (Env × CardAction)) (s : CardState) : CardState :=
  steps.foldl (fun st p => cardReducer p.1 st p.2) s

/-! ## Selectors (src/utils/cardSelectors.ts) -/

/-- getVisibleCards: all cards, or only the unmastered ones under the
needsReview filter.  The JavaScript test is !card.mastered, which is true
for false and for an absent field alike. -/
def getVisibleCards (state : CardState) : List Flashcard :=
  match state.filter with
  | .needsReview => state.cards.filter (fun card => !card.masteredTruthy)
  | .all => state.cards

/-- getCurrentCard: visibleCards[state.currentCardIndex] with the
JavaScript or-null fallback; none models null. -/
def getCurrentCard (state : CardState) : Option Flashcard :=
  (getVisibleCards state)[state.currentCardIndex]?

/-! ## Bulk import parser (parseBulkImportText) -/

/-- Character limit on the vocabulary field. -/
def MAX_VOCABULARY_LENGTH : Nat := 100

/-- Character limit on the meaning field. -/
def MAX_MEANING_LENGTH : Nat := 500

/-- Character limit on the part-of-speech field. -/
def PART_OF_SPEECH_MAX_LENGTH : Nat := 50

/-- Upper bound on the number of example sentences. -/
def MAX_EXAMPLE_SENTENCES : Nat := 5

/-- Character limit on a single example sentence. -/
def EXAMPLE_SENTENCE_MAX_LENGTH : Nat := 500

/-- A failed bulk-import entry with its error message. -/
structure FailedEntry where
  rawText : String
  error : String
deriving Repr, DecidableEq

/-- BulkImportResult. -/
structure BulkImportResult where
  successful : List Flashcard
  failed : List FailedEntry
deriving Repr, DecidableEq

/-- The fields extracted from one entry before the card record is built. -/
structure ParsedFields where
  term : String
  definition : String
  partOfSpeech : Option String
  exampleSentences : Option (List String)
deriving Repr, DecidableEq

/-- Comma split of one entry with every field trimmed, the parts array of
the per-entry loop body. -/
def entryParts (entry : String) : List String :=
  (jsSplit ',' entry).map jsTrim

/-- The conditional spread of the part-of-speech field at card creation:
the field is included only when defined and non-empty. -/
def truthyOpt (o : Option String) : Option String :=
  match o with
  | some p => if p = "" then none else some p
  | none => none

/-- The conditional spread of the example-sentences field at card
creation: the field is included only when the list is non-empty. -/
def nonemptyList (l : List String) : Option (List String) :=
  if l = [] then none else some l

/-- The per-entry body of the parser loop, applied to the trimmed entry:
comma split, arity check, and the validation cascade, in source order.
Returns the fields of the card to create or the error message pushed to
failed. -/
def parseEntryCore (trimmedEntry : String) : Except String ParsedFields :=
  let parts := entryParts trimmedEntry
  if parts.length < 2 then
    .error "Missing comma separator. Expected format: \"vocabulary, meaning[, partOfSpeech[, examples]]\""
  else
    let vocabulary := parts.getD 0 ""
    let meaning := parts.getD 1 ""
    let partOfSpeech : Option String :=
      if 3 ≤ parts.length then some (parts.getD 2 "") else none
    let examplesRaw : Option String :=
      if 4 ≤ parts.length then some (jsTrim (String.intercalate "," (parts.drop 3))) else none
    if vocabulary = "" then
      .error "Vocabulary cannot be empty"
    else if MAX_VOCABULARY_LENGTH < vocabulary.length then
      .error ("Vocabulary exceeds " ++ toString MAX_VOCABULARY_LENGTH ++ " characters ("
        ++ toString vocabulary.length ++ " chars)")
    else if meaning = "" then
      .error "Meaning cannot be empty"
    else if MAX_MEANING_LENGTH < meaning.length then
      .error ("Meaning exceeds " ++ toString MAX_MEANING_LENGTH ++ " characters ("
        ++ toString meaning.length ++ " chars)")
    else if (match partOfSpeech with
        | some p => (p != "") && decide (PART_OF_SPEECH_MAX_LENGTH < p.length)
        | none => false) then
      .error ("Part of speech exceeds " ++ toString PART_OF_SPEECH_MAX_LENGTH
        ++ " characters (" ++ toString ((partOfSpeech.getD "").length) ++ " chars)")
    else
      let examples : List String :=
        match examplesRaw with
        | some er =>
          if er = "" then []
          else ((jsSplit '|' er).map jsTrim).filter (fun ex => ex != "")
        | none => []
      if MAX_EXAMPLE_SENTENCES < examples.length then
        .error ("Too many examples (" ++ toString examples.length ++ "). Maximum is "
          ++ toString MAX_EXAMPLE_SENTENCES)
      else
        match examples.find? (fun ex => decide (EXAMPLE_SENTENCE_MAX_LENGTH < ex.length)) with
        | some ex =>
          .error ("Example sentence exceeds " ++ toString EXAMPLE_SENTENCE_MAX_LENGTH
            ++ " characters (" ++ toString ex.length ++ " chars)")
        | none =>
          .ok
            { term := vocabulary
              definition := meaning
              partOfSpeech := truthyOpt partOfSpeech
              exampleSentences := nonemptyList examples }

/-- Decidable equality for parser results. -/
instance : DecidableEq (Except String ParsedFields) := fun a b =>
  match a, b with
  | .ok x, .ok y => if h : x = y then .isTrue (by rw [h]) else .isFalse (by simp [h])
  | .error x, .error y => if h : x = y then .isTrue (by rw [h]) else .isFalse (by simp [h])
  | .ok _, .error _ => .isFalse (by simp)
  | .error _, .ok _ => .isFalse (by simp)

/-- Supply of generated ids and timestamps for the cards a parse creates,
indexed by how many cards have been created before. -/
structure GenEnv where
  genId : Nat → String
  genTime : Nat → String

/-- Construction of the Flashcard record for a valid entry: generated id
and createdAt, mastered set to false, optional fields only when present. -/
def mkImportCard (env : GenEnv) (k : Nat) (f : ParsedFields) : Flashcard :=
  { id := env.genId k
    term := f.term
    definition := f.definition
    mastered := some false
    createdAt := env.genTime k
    partOfSpeech := f.partOfSpeech
    exampleSentences := f.exampleSentences }

/-- The entry loop of parseBulkImportText: trim, skip blank entries, and
collect the successful cards and the failures in input order.  k counts the
cards created so far and indexes the id and timestamp supply. -/
def runEntries (env : GenEnv) : List String → Nat → BulkImportResult
  | [], _ => { successful := [], failed := [] }
  | entry :: rest, k =>
    let trimmedEntry := jsTrim entry
    if trimmedEntry = "" then
      runEntries env rest k
    else
      match parseEntryCore trimmedEntry with
      | .error msg =>
        let r := runEntries env rest k
        { successful := r.successful, failed := { rawText := trimmedEntry, error := msg } :: r.failed }
      | .ok f =>
        let r := runEntries env rest (k + 1)
        { successful := mkImportCard env k f :: r.successful, failed := r.failed }

/-- parseBulkImportText: empty input short-circuits; input with a line
break is split per line, a single line is split at semicolons instead. -/
def parseBulkImportText (env : GenEnv) (rawText : String) : BulkImportResult :=
  if jsTrim rawText = "" then
    { successful := [], failed := [] }
  else
    let hasNewlines := jsIncludes '\n' rawText
    let allEntries := if hasNewlines then jsSplit '\n' rawText else jsSplit ';' rawText
    runEntries env allEntries 0

/-- Decision of Except success. -/
def entryOk : Except String ParsedFields → Bool
  | .ok _ => true
  | .error _ => false

/-- A well-formed line: non-blank after trimming and accepted by the
per-entry validation. -/
def lineGoodB (l : String) : Bool :=
  (jsTrim l != "") && entryOk (parseEntryCore (jsTrim l))

/-- A malformed line: non-blank after trimming and rejected by the
per-entry validation. -/
def lineBadB (l : String) : Bool :=
  (jsTrim l != "") && !entryOk (parseEntryCore (jsTrim l))

/-! ## LocalStorage adapter (src/hooks/useLocalStorage.ts)

The adapter is modelled at the level of the parsed envelope: the storage
cell holds either nothing or a structurally well-formed StorageSchema
value.  JSON.parse inverts JSON.stringify on such records field for field,
with an absent optional field surviving as an absent key, which the Option
fields of Flashcard carry through; the corrupted-payload branch of load is
outside the round-trip and quota claims and is not modelled. -/

/-- The persisted envelope. -/
structure StorageSchema where
  version : String
  cards : List Flashcard
  lastModified : String
deriving Repr, DecidableEq

/-- Current schema tag. -/
def CURRENT_VERSION : String := "1.0"

/-- Outcome of the localStorage.setItem call inside save: success, or one
of the two DOMException conditions the source distinguishes. -/
inductive SetItemOutcome where
  | ok
  | quotaExceeded
  | securityError
deriving Repr, DecidableEq

/-- The error save throws, by condition, with its user-facing message. -/
inductive SaveError where
  | quota (msg : String)
  | security (msg : String)
deriving Repr, DecidableEq

/-- saveToLocalStorage: on success the envelope written; on a storage
exception the distinct error the source throws instead. -/
def saveToLocalStorage (outcome : SetItemOutcome) (now : String)
    (cards : List Flashcard) : Except SaveError StorageSchema :=
  match outcome with
  | .ok => .ok { version := CURRENT_VERSION, cards := cards, lastModified := now }
  | .quotaExceeded =>
    .error (.quota ("Storage limit exceeded. You have too many flashcards. "
      ++ "Please delete some cards or export your collection. "
      ++ "(Current: " ++ toString cards.length ++ " cards)"))
  | .securityError =>
    .error (.security ("Browser storage is disabled. Your flashcards will not be saved. "
      ++ "Please enable storage or check your browser privacy settings."))

/-- Validity test applied to each stored card at load time: a truthy id
and a boolean mastered field; term, definition and createdAt are strings by
construction in this typed model. -/
def isValidCard (card : Flashcard) : Bool :=
  (card.id != "") && card.mastered.isSome

/-- loadFromLocalStorage on a parsed cell: missing key gives the empty
list, a version mismatch is discarded by migrateData (which knows no other
version), and structurally invalid cards are filtered out one by one. -/
def loadFromLocalStorage (store : Option StorageSchema) : List Flashcard :=
  match store with
  | none => []
  | some data =>
    if data.version ≠ CURRENT_VERSION then []
    else data.cards.filter isValidCard

/-- The save-then-reload composition of the round-trip property. -/
def saveThenLoad (now : String) (cards : List Flashcard) : Option (List Flashcard) :=
  match saveToLocalStorage SetItemOutcome.ok now cards with
  | .ok env => some (loadFromLocalStorage (some env))
  | .error _ => none

/-- The CardProvider persistence effect: save the cards and keep the new
cell on success; on an exception the write has not taken effect, the cell
keeps its old content, the in-memory state is untouched and the error is
surfaced to the catch block. -/
def persistEffect (outcome : SetItemOutcome) (now : String) (s : CardState)
    (store : Option StorageSchema) : CardState × Option StorageSchema × Option SaveError :=
  match saveToLocalStorage outcome now s.cards with
  | .ok env => (s, some env, none)
  | .error e => (s, store, some e)



/-! ## Concrete fixtures used by witnesses and counterexamples -/

/-- A fixed reducer environment with a constant id and timestamp supply and
the random draw that always picks index 0. -/
def env0 : Env :=
  { newId := "fresh-id", newTime := "2026-01-01T00:00:00.000Z", choice := fun _ => 0 }

/-- A reducer environment generating the id A. -/
def envIdA : Env := { newId := "A", newTime := "t", choice := fun _ => 0 }

/-- A reducer environment generating the id B. -/
def envIdB : Env := { newId := "B", newTime := "t", choice := fun _ => 0 }

/-- A fixed parser supply of ids and timestamps. -/
def envG : GenEnv := { genId := fun _ => "gen-id", genTime := fun _ => "gen-t" }

/-- An unmastered card. -/
def cardA : Flashcard :=
  { id := "A", term := "alpha", definition := "first", mastered := some false,
    createdAt := "t0", partOfSpeech := none, exampleSentences := none }

/-- A mastered card. -/
def cardB : Flashcard :=
  { id := "B", term := "beta", definition := "second", mastered := some true,
    createdAt := "t0", partOfSpeech := none, exampleSentences := none }

/-- A card with both optional fields present. -/
def cardC : Flashcard :=
  { id := "C", term := "gamma", definition := "third", mastered := some false,
    createdAt := "t0", partOfSpeech := some "noun",
    exampleSentences := some ["gamma ray", "gamma wave"] }

/-- An ADD_CARD payload for the trace fixtures. -/
def payloadA : AddPayload :=
  { term := "a", definition := "da", mastered := some false,
    partOfSpeech := none, exampleSentences := none }

/-- A second ADD_CARD payload for the trace fixtures. -/
def payloadB : AddPayload :=
  { term := "b", definition := "db", mastered := some false,
    partOfSpeech := none, exampleSentences := none }

/-- A dispatch trace: two adds, master the second card, filter to
needsReview, then navigate to index 1. -/
def cexTrace : List (Env × CardAction) :=
  [(envIdA, CardAction.addCard payloadA),
   (envIdB, CardAction.addCard payloadB),
   (envIdA, CardAction.toggleMastered "B"),
   (envIdA, CardAction.setFilter Filter.needsReview),
   (envIdA, CardAction.navigate 1)]

/-- A dispatch trace without LOAD_CARDS: one add, then an out-of-range
navigate. -/
def witnessTrace : List (Env × CardAction) :=
  [(env0, CardAction.addCard payloadA),
   (env0, CardAction.navigate 5)]

/-- A state whose second card is mastered, filtered to needsReview. -/
def navCexState : CardState :=
  { cards := [cardA, cardB], filter := Filter.needsReview, currentCardIndex := 0 }

/-- The hydrated state of a session start: the loaded cards, the all
filter, and cursor 0, exactly the lazy initialisation of the provider. -/
def hydrated (cs : List Flashcard) : CardState :=
  { cards := cs, filter := Filter.all, currentCardIndex := 0 }

/-- A one-card state with the all filter and cursor 0. -/
def oneCardState : CardState :=
  { cards := [cardA], filter := Filter.all, currentCardIndex := 0 }

/-- A two-card state with the all filter and cursor 1. -/
def twoCardState : CardState :=
  { cards := [cardA, cardB], filter := Filter.all, currentCardIndex := 1 }

/-- A one-card state whose cursor is far beyond the visible length. -/
def outOfRangeState : CardState :=
  { cards := [cardA], filter := Filter.all, currentCardIndex := 3 }

/-! ## Helper lemmas: swapping and the shuffle permutation -/

/-- Listing the element at position k first and writing a at position k is
a permutation of putting a first. -/
theorem cons_set_perm (t : List α) : ∀ (k : Nat) (hk : k < t.length) (a : α),
    ((t.get ⟨k, hk⟩) :: t.set k a).Perm (a :: t) := by
  induction t with
  | nil => intro k hk a; simp at hk
  | cons b t ih =>
    intro k hk a
    cases k with
    | zero => simpa using List.Perm.swap a b t
    | succ m =>
      have hm : m < t.length := by simpa using hk
      have step1 : ((t.get ⟨m, hm⟩) :: b :: t.set m a).Perm (b :: (t.get ⟨m, hm⟩) :: t.set m a) :=
        List.Perm.swap b (t.get ⟨m, hm⟩) (t.set m a)
      have step2 : (b :: (t.get ⟨m, hm⟩) :: t.set m a).Perm (b :: a :: t) :=
        (ih m hm a).cons b
      have step3 : (b :: a :: t).Perm (a :: b :: t) := List.Perm.swap a b t
      simpa using (step1.trans step2).trans step3

/-- Writing the values at two positions across each other permutes the
list. -/
theorem set_set_swap_perm : ∀ (l : List α) (i j : Nat) (hi : i < l.length)
    (hj : j < l.length), ((l.set i (l.get ⟨j, hj⟩)).set j (l.get ⟨i, hi⟩)).Perm l := by
  intro l
  induction l with
  | nil => intro i j hi hj; simp at hi
  | cons a t ih =>
    intro i j hi hj
    cases i with
    | zero =>
      cases j with
      | zero => simp
      | succ k =>
        have hk : k < t.length := by simpa using hj
        simpa using cons_set_perm t k hk a
    | succ m =>
      have hm : m < t.length := by simpa using hi
      cases j with
      | zero => simpa using cons_set_perm t m hm a
      | succ k =>
        have hk : k < t.length := by simpa using hj
        simpa using (ih m k hm hk).cons a

/-- A single JavaScript destructuring swap permutes the list. -/
theorem listSwap_perm (l : List α) (i j : Nat) : (listSwap l i j).Perm l := by
  unfold listSwap
  cases hi : l[i]? with
  | none => cases l[j]? <;> simp
  | some a =>
    cases hj : l[j]? with
    | none => simp
    | some b =>
      obtain ⟨hil, hia⟩ := List.getElem?_eq_some_iff.mp hi
      obtain ⟨hjl, hjb⟩ := List.getElem?_eq_some_iff.mp hj
      have base := set_set_swap_perm l i j hil hjl
      simp only [List.get_eq_getElem] at base
      rw [hia, hjb] at base
      simpa using base

/-- Every pass of the shuffle loop permutes the list. -/
theorem fyLoop_perm (choice : Nat → Nat) : ∀ (n : Nat) (l : List α),
    (fyLoop choice n l).Perm l := by
  intro n
  induction n with
  | zero => intro l; simp [fyLoop]
  | succ i ih =>
    intro l
    exact (ih (listSwap l (i + 1) (choice (i + 1)))).trans (listSwap_perm l (i + 1) (choice (i + 1)))

/-- The Fisher-Yates shuffle produces a permutation of its input, whatever
the random draws were. -/
theorem fisherYates_perm (choice : Nat → Nat) (l : List α) :
    (fisherYates choice l).Perm l :=
  fyLoop_perm choice (l.length - 1) l

/-! ## Helper lemmas: the cursor bound -/

/-- One reducer step other than LOAD_CARDS keeps the cursor inside
[0, max 1 cards.length). -/
theorem cursorOK_step (env : Env) (s : CardState) (a : CardAction)
    (hload : a.isLoad = false) (h : s.currentCardIndex < max 1 s.cards.length) :
    (cardReducer env s a).currentCardIndex < max 1 (cardReducer env s a).cards.length := by
  cases a with
  | addCard p => simp only [cardReducer, List.length_append, List.length_cons, List.length_nil]; omega
  | updateCard id u => simpa [cardReducer] using h
  | deleteCard cid =>
    simp only [cardReducer]
    split
    · omega
    · split <;> omega
  | toggleMastered cid => simpa [cardReducer] using h
  | setFilter f => simp only [cardReducer]; omega
  | navigate t => simp only [cardReducer]; omega
  | shuffleCards => simp only [cardReducer]; omega
  | bulkImport cs => simp only [cardReducer, List.length_append]; omega
  | loadCards cs => simp [CardAction.isLoad] at hload

/-- The cursor bound is preserved along any trace free of LOAD_CARDS. -/
theorem runTrace_cursorOK (steps : List (Env × CardAction))
    (hs : ∀ p ∈ steps, p.2.isLoad = false) :
    ∀ s : CardState, s.currentCardIndex < max 1 s.cards.length →
      (runTrace steps s).currentCardIndex < max 1 (runTrace steps s).cards.length := by
  induction steps with
  | nil => intro s h; simpa [runTrace] using h
  | cons p rest ih =>
    intro s h
    have h1 := cursorOK_step p.1 s p.2 (hs p (by simp)) h
    have hrest : ∀ q ∈ rest, q.2.isLoad = false := fun q hq => hs q (by simp [hq])
    simpa [runTrace] using ih hrest (cardReducer p.1 s p.2) h1

/-! ## Helper lemmas: the parser loop -/

/-- The entry loop produces one successful card per well-formed entry and
one failure per malformed entry, in input order; every created card has
mastered set to false, and every failure carries the trimmed text of a
malformed entry. -/
theorem runEntries_spec (env : GenEnv) : ∀ (entries : List String) (k : Nat),
    (runEntries env entries k).successful.length = entries.countP lineGoodB ∧
    (runEntries env entries k).failed.length = entries.countP lineBadB ∧
    (∀ c ∈ (runEntries env entries k).successful, c.mastered = some false) ∧
    (∀ f ∈ (runEntries env entries k).failed,
      ∃ l ∈ entries, lineBadB l = true ∧ f.rawText = jsTrim l) := by
  intro entries
  induction entries with
  | nil => intro k; simp [runEntries]
  | cons e rest ih =>
    intro k
    by_cases he : jsTrim e = ""
    · have hg : lineGoodB e = false := by simp [lineGoodB, he]
      have hb : lineBadB e = false := by simp [lineBadB, he]
      obtain ⟨ih1, ih2, ih3, ih4⟩ := ih k
      refine ⟨?_, ?_, ?_, ?_⟩
      · simpa [runEntries, he, List.countP_cons, hg] using ih1
      · simpa [runEntries, he, List.countP_cons, hb] using ih2
      · simpa [runEntries, he] using ih3
      · intro f hf
        rw [show runEntries env (e :: rest) k = runEntries env rest k by
          simp [runEntries, he]] at hf
        obtain ⟨l, hl, hbl, hr⟩ := ih4 f hf
        exact ⟨l, List.mem_cons_of_mem e hl, hbl, hr⟩
    · cases hp : parseEntryCore (jsTrim e) with
      | error msg =>
        have hg : lineGoodB e = false := by simp [lineGoodB, entryOk, hp]
        have hb : lineBadB e = true := by simp [lineBadB, entryOk, he, hp]
        have hrun : runEntries env (e :: rest) k =
            { successful := (runEntries env rest k).successful,
              failed := { rawText := jsTrim e, error := msg } :: (runEntries env rest k).failed } := by
          simp [runEntries, he, hp]
        obtain ⟨ih1, ih2, ih3, ih4⟩ := ih k
        refine ⟨?_, ?_, ?_, ?_⟩
        · simpa [hrun, List.countP_cons, hg] using ih1
        · simpa [hrun, List.countP_cons, hb] using ih2
        · intro c hc
          rw [hrun] at hc
          exact ih3 c hc
        · intro f hf
          rw [hrun] at hf
          rcases List.mem_cons.mp hf with hf1 | hf2
          · exact ⟨e, List.mem_cons_self e rest, hb, by rw [hf1]⟩
          · obtain ⟨l, hl, hbl, hr⟩ := ih4 f hf2
            exact ⟨l, List.mem_cons_of_mem e hl, hbl, hr⟩
      | ok fields =>
        have hg : lineGoodB e = true := by simp [lineGoodB, entryOk, he, hp]
        have hb : lineBadB e = false := by simp [lineBadB, entryOk, hp]
        have hrun : runEntries env (e :: rest) k =
            { successful := mkImportCard env k fields :: (runEntries env rest (k + 1)).successful,
              failed := (runEntries env rest (k + 1)).failed } := by
          simp [runEntries, he, hp]
        obtain ⟨ih1, ih2, ih3, ih4⟩ := ih (k + 1)
        refine ⟨?_, ?_, ?_, ?_⟩
        · simpa [hrun, List.countP_cons, hg] using ih1
        · simpa [hrun, List.countP_cons, hb] using ih2
        · intro c hc
          rw [hrun] at hc
          rcases List.mem_cons.mp hc with hc1 | hc2
          · rw [hc1]; rfl
          · exact ih3 c hc2
        · intro f hf
          rw [hrun] at hf
          obtain ⟨l, hl, hbl, hr⟩ := ih4 f hf
          exact ⟨l, List.mem_cons_of_mem e hl, hbl, hr⟩

/-! ## Claim C1: the NAVIGATE clamp -/

/-- C1, amended.  For every state and every integer targetIndex, NAVIGATE
sets currentCardIndex to targetIndex clamped into [0, cards.length - 1]
over the FULL card list (0 when the list is empty), not the filtered view;
cards and filter are untouched, out-of-range targets are silently clamped
and never an error, and the resulting cursor is always below
max 1 cards.length. -/
theorem navigate_clamps_to_full_card_list (env : Env) (s : CardState) (t : Int) :
    (cardReducer env s (CardAction.navigate t)).cards = s.cards ∧
    (cardReducer env s (CardAction.navigate t)).filter = s.filter ∧
    (cardReducer env s (CardAction.navigate t)).currentCardIndex
      = (max 0 (min t ((s.cards.length : Int) - 1))).toNat ∧
    (cardReducer env s (CardAction.navigate t)).currentCardIndex < max 1 s.cards.length := by
  refine ⟨rfl, rfl, rfl, ?_⟩
  simp only [cardReducer]
  omega

/-- C1, counterexample to the claim as stated.  In a two-card state whose
second card is mastered and whose filter is needsReview, the filtered view
has length 1, so the claim requires Navigate(1) to clamp the cursor into
[0, 0]; the code instead clamps against the full list and leaves the
cursor at 1, at or beyond the visible length. -/
theorem navigate_ignores_filtered_view_cex :
    (getVisibleCards navCexState).length = 1 ∧
    (cardReducer env0 navCexState (CardAction.navigate 1)).currentCardIndex = 1 ∧
    ¬((cardReducer env0 navCexState (CardAction.navigate 1)).currentCardIndex
      < (getVisibleCards navCexState).length) := by
  decide

/-! ## Claim C2: the cursor invariant -/

/-- C2, amended.  Starting from any hydrated state (loaded cards, filter
all, cursor 0), every trace of reducer commands that contains no
LOAD_CARDS keeps 0 <= currentCardIndex < max 1 cards.length, the bound
taken against the FULL card list rather than the filtered view (the lower
bound is inherent in the Nat index). -/
theorem cursor_invariant_full_list (initCards : List Flashcard)
    (steps : List (Env × CardAction))
    (hs : ∀ p ∈ steps, p.2.isLoad = false) :
    (runTrace steps (hydrated initCards)).currentCardIndex
      < max 1 (runTrace steps (hydrated initCards)).cards.length :=
  runTrace_cursorOK steps hs _ (by simp [hydrated])

/-- C2, witness for the amended cursor invariant on a concrete trace with
an add and an out-of-range navigate. -/
theorem cursor_invariant_full_list_witness :
    (runTrace witnessTrace (hydrated [])).currentCardIndex
      < max 1 (runTrace witnessTrace (hydrated [])).cards.length :=
  cursor_invariant_full_list [] witnessTrace (by decide)

/-- C2, counterexample to the claim as stated.  The reachable trace add,
add, toggle-mastered, set-filter needsReview, navigate 1 leaves the cursor
at 1 while the visible view has length 1, violating
currentCardIndex < max 1 visibleCards.length. -/
theorem cursor_invariant_visible_view_cex :
    ¬((runTrace cexTrace initialState).currentCardIndex
        < max 1 (getVisibleCards (runTrace cexTrace initialState)).length) := by
  decide

/-! ## Claim C3: ADD_CARD appends exactly one card -/

/-- C3, amended.  For every state and payload, ADD_CARD yields the old
list with exactly one new card appended at the end, every pre-existing
card unchanged in its original position, filter and cursor untouched; the
new card takes its mastered field verbatim from the payload (the action
type makes the field mandatory, and the reducer performs no defaulting to
false). -/
theorem add_card_appends_exactly_one (env : Env) (s : CardState) (p : AddPayload) :
    (cardReducer env s (CardAction.addCard p)).cards
      = s.cards ++ [{ id := env.newId, term := p.term, definition := p.definition,
                      mastered := p.mastered, createdAt := env.newTime,
                      partOfSpeech := p.partOfSpeech, exampleSentences := p.exampleSentences }] ∧
    (cardReducer env s (CardAction.addCard p)).filter = s.filter ∧
    (cardReducer env s (CardAction.addCard p)).currentCardIndex = s.currentCardIndex :=
  ⟨rfl, rfl, rfl⟩

/-- C3, counterexample to the defaulting half of the claim as stated.  A
payload whose mastered field is absent produces a card whose mastered
field is likewise absent, not false: the reducer spreads the payload and
never writes a default. -/
theorem add_card_mastered_default_cex :
    (cardReducer env0 initialState (CardAction.addCard
        { term := "a", definition := "b", mastered := none,
          partOfSpeech := none, exampleSentences := none })).cards.map Flashcard.mastered
      = [none] ∧
    ([none] : List (Option Bool)) ≠ [some false] := by
  decide

/-! ## Claim C4: UPDATE_CARD merges only the provided fields -/

/-- C4.  UPDATE_CARD leaves filter, cursor and list length unchanged;
position by position, the card whose id matches is replaced by the merge
of the provided fields and every other card is untouched; the merge keeps
id, createdAt and mastered and changes exactly the provided fields among
term, definition, partOfSpeech and exampleSentences; and when no card
carries the id the whole state is unchanged, a no-op rather than an
error. -/
theorem update_card_merges_only_given_fields (env : Env) (s : CardState)
    (id : String) (u : UpdatePayload) :
    (cardReducer env s (CardAction.updateCard id u)).filter = s.filter ∧
    (cardReducer env s (CardAction.updateCard id u)).currentCardIndex = s.currentCardIndex ∧
    (cardReducer env s (CardAction.updateCard id u)).cards.length = s.cards.length ∧
    (∀ i : Nat, (cardReducer env s (CardAction.updateCard id u)).cards[i]?
        = (s.cards[i]?).map (fun c => if c.id = id then applyUpdates c u else c)) ∧
    (∀ c : Flashcard,
        (applyUpdates c u).id = c.id ∧
        (applyUpdates c u).createdAt = c.createdAt ∧
        (applyUpdates c u).mastered = c.mastered ∧
        (applyUpdates c u).term = u.term.getD c.term ∧
        (applyUpdates c u).definition = u.definition.getD c.definition ∧
        (applyUpdates c u).partOfSpeech = u.partOfSpeech.or c.partOfSpeech ∧
        (applyUpdates c u).exampleSentences = u.exampleSentences.or c.exampleSentences) ∧
    ((∀ c ∈ s.cards, c.id ≠ id) → cardReducer env s (CardAction.updateCard id u) = s) := by
  have hmap : ∀ (l : List Flashcard), (∀ c ∈ l, c.id ≠ id) →
      l.map (fun c => if c.id = id then applyUpdates c u else c) = l := by
    intro l
    induction l with
    | nil => intro _; rfl
    | cons c t iht =>
      intro hl
      rw [List.map_cons, if_neg (hl c (List.mem_cons_self c t)),
        iht (fun x hx => hl x (List.mem_cons_of_mem c hx))]
  refine ⟨rfl, rfl, by simp [cardReducer], ?_, ?_, ?_⟩
  · intro i
    simp [cardReducer, List.getElem?_map]
  · intro c
    obtain ⟨ut, ud, up, ue⟩ := u
    refine ⟨rfl, rfl, rfl, rfl, rfl, ?_, ?_⟩
    · cases up <;> rfl
    · cases ue <;> rfl
  · intro hnone
    simp only [cardReducer]
    rw [hmap s.cards hnone]

/-- C4, witness: updating under an id no card carries leaves the concrete
one-card state untouched. -/
theorem update_card_unknown_id_witness :
    cardReducer env0 oneCardState
        (CardAction.updateCard "Z"
          { term := some "new", definition := none,
            partOfSpeech := none, exampleSentences := none })
      = oneCardState :=
  (update_card_merges_only_given_fields env0 oneCardState "Z"
    { term := some "new", definition := none,
      partOfSpeech := none, exampleSentences := none }).2.2.2.2.2 (by decide)

/-! ## Claim C5: SHUFFLE_CARDS is a permutation -/

/-- C5.  For every state and every possible outcome of the random draws
(each draw at loop index i lies in [0, i]), SHUFFLE_CARDS produces a
permutation of the previous card list, with each record intact, hence the
same multiset of ids, and resets the cursor to 0; the filter is
unchanged. -/
theorem shuffle_is_permutation (env : Env) (s : CardState)
    (hchoice : ∀ i, env.choice i ≤ i) :
    (cardReducer env s CardAction.shuffleCards).cards.Perm s.cards ∧
    ((cardReducer env s CardAction.shuffleCards).cards.map Flashcard.id).Perm
      (s.cards.map Flashcard.id) ∧
    (cardReducer env s CardAction.shuffleCards).currentCardIndex = 0 ∧
    (cardReducer env s CardAction.shuffleCards).filter = s.filter := by
  have hdraws := hchoice 0
  have hp : (fisherYates env.choice s.cards).Perm s.cards :=
    fisherYates_perm env.choice s.cards
  exact ⟨hp, hp.map Flashcard.id, rfl, rfl⟩

/-- C5, witness on a concrete two-card state with the always-zero draw. -/
theorem shuffle_is_permutation_witness :
    (cardReducer env0 twoCardState CardAction.shuffleCards).cards.Perm [cardA, cardB] ∧
    (cardReducer env0 twoCardState CardAction.shuffleCards).currentCardIndex = 0 := by
  have h := shuffle_is_permutation env0 twoCardState (fun i => Nat.zero_le i)
  exact ⟨h.1, h.2.2.1⟩

/-! ## Claim C6: comma policy of the entry fields -/

/-- C6, amended.  Every entry the parser accepts is split at EVERY comma
and the fields are trimmed: the term is field 0, the definition is exactly
field 1, the text between the first and the second comma, never absorbing
later fields.  With exactly one comma (the 2-field fallback) the
definition is just the trimmed text after that comma, so it cannot itself
contain a comma; with exactly two commas the third field becomes
partOfSpeech when non-empty, not part of the definition. -/
theorem entry_fields_follow_comma_split (entry : String) (f : ParsedFields)
    (h : parseEntryCore entry = Except.ok f) :
    2 ≤ (entryParts entry).length ∧
    f.term = (entryParts entry).getD 0 "" ∧
    f.definition = (entryParts entry).getD 1 "" ∧
    ((entryParts entry).length = 2 → f.partOfSpeech = none) ∧
    (3 ≤ (entryParts entry).length →
      f.partOfSpeech = truthyOpt (some ((entryParts entry).getD 2 ""))) := by
  simp only [parseEntryCore] at h
  repeat' split at h
  all_goals
    first
      | exact Except.noConfusion h
      | (injection h with hf
         subst hf
         refine ⟨by omega, rfl, rfl, fun h2 => ?_, fun h3 => ?_⟩ <;>
           first
             | rfl
             | exact absurd h2 (by omega)
             | exact absurd h3 (by omega))

/-- C6, witness: the theorem applied to the entry a, b, c, whose parsed
fields have definition b and partOfSpeech c. -/
theorem entry_fields_follow_comma_split_witness :
    2 ≤ (entryParts "a, b, c").length ∧
    (ParsedFields.mk "a" "b" (some "c") none).term = (entryParts "a, b, c").getD 0 "" ∧
    (ParsedFields.mk "a" "b" (some "c") none).definition = (entryParts "a, b, c").getD 1 "" ∧
    ((entryParts "a, b, c").length = 2 →
      (ParsedFields.mk "a" "b" (some "c") none).partOfSpeech = none) ∧
    (3 ≤ (entryParts "a, b, c").length →
      (ParsedFields.mk "a" "b" (some "c") none).partOfSpeech
        = truthyOpt (some ((entryParts "a, b, c").getD 2 ""))) :=
  entry_fields_follow_comma_split "a, b, c" (ParsedFields.mk "a" "b" (some "c") none) (by decide)

/-- C6, counterexample to the claim as stated.  On the entry a, b, c,
which carries exactly two commas, the claim requires the definition to be
everything after the first comma, b, c; the parser instead produces
definition b and promotes c to partOfSpeech. -/
theorem two_commas_do_not_join_definition_cex :
    (parseBulkImportText envG "a, b, c").successful.map
        (fun c => (c.definition, c.partOfSpeech)) = [("b", some "c")] ∧
    (("b", some "c") : String × Option String) ≠ ("b, c", none) := by
  decide

/-! ## Claim C7: one malformed line among well-formed lines -/

/-- C7, amended.  For every input text that contains a line break (so the
parser splits it per line) and whose lines include exactly one malformed
line, the parse yields exactly one failed entry, carrying the trimmed text
of that malformed line and an error message, and one successful card per
well-formed line, in input order, each with mastered false; the bad line
never aborts the batch.  Without a line break the input is split at
semicolons instead, where a malformed line containing semicolons produces
several failures. -/
theorem parser_isolates_the_malformed_line (env : GenEnv) (rawText : String)
    (h0 : jsTrim rawText ≠ "")
    (h1 : jsIncludes '\n' rawText = true)
    (h2 : (jsSplit '\n' rawText).countP lineBadB = 1) :
    (parseBulkImportText env rawText).failed.length = 1 ∧
    (parseBulkImportText env rawText).successful.length
      = (jsSplit '\n' rawText).countP lineGoodB ∧
    (∀ c ∈ (parseBulkImportText env rawText).successful, c.mastered = some false) ∧
    (∀ f ∈ (parseBulkImportText env rawText).failed,
      ∃ l ∈ jsSplit '\n' rawText, lineBadB l = true ∧ f.rawText = jsTrim l) := by
  have hrun : parseBulkImportText env rawText = runEntries env (jsSplit '\n' rawText) 0 := by
    simp [parseBulkImportText, h0, h1]
  obtain ⟨s1, s2, s3, s4⟩ := runEntries_spec env (jsSplit '\n' rawText) 0
  rw [hrun]
  exact ⟨by rw [s2, h2], s1, s3, s4⟩

/-- C7, witness: a three-line input whose middle line is malformed yields
one failure and two successes. -/
theorem parser_isolates_the_malformed_line_witness :
    (parseBulkImportText envG "a, b\nbad\nc, d").failed.length = 1 ∧
    (parseBulkImportText envG "a, b\nbad\nc, d").successful.length = 2 := by
  have h := parser_isolates_the_malformed_line envG "a, b\nbad\nc, d"
    (by decide) (by decide) (by decide)
  refine ⟨h.1, ?_⟩
  rw [h.2.1]
  decide

/-- C7, counterexample to the claim as stated.  The input a;b is a single
line, malformed as an entry, with zero well-formed lines; the claim
demands exactly one failed entry, but the line-break-free input is split
at the semicolon and both halves fail, giving two failed entries. -/
theorem single_malformed_line_with_semicolon_cex :
    jsSplit '\n' "a;b" = ["a;b"] ∧
    lineBadB "a;b" = true ∧
    (jsSplit '\n' "a;b").countP lineGoodB = 0 ∧
    (parseBulkImportText envG "a;b").failed.length = 2 := by
  decide

/-! ## Claim C8: persistence round trip -/

/-- C8.  For every card list whose members are valid stored cards (a
non-empty id and a present boolean mastered; term, definition and
createdAt are strings by construction), loading immediately after saving
returns the same list field for field, optional fields included. -/
theorem load_after_save_roundtrip (now : String) (cards : List Flashcard)
    (h : ∀ c ∈ cards, isValidCard c = true) :
    saveThenLoad now cards = some cards := by
  simp only [saveThenLoad, saveToLocalStorage, loadFromLocalStorage]
  rw [if_neg (by simp)]
  rw [List.filter_eq_self.mpr h]

/-- C8, witness: a concrete list with both optional fields present on one
card round-trips unchanged. -/
theorem load_after_save_roundtrip_witness :
    saveThenLoad "2026-01-01T00:00:00.000Z" [cardA, cardC] = some [cardA, cardC] :=
  load_after_save_roundtrip "2026-01-01T00:00:00.000Z" [cardA, cardC] (by decide)

/-! ## Claim C9: quota-exceeded save -/

/-- C9.  Whenever the setItem call hits the quota-exceeded condition, the
save surfaces the dedicated quota error, distinct by construction from the
security error of generic storage failure, whose message textually
contains the current card count; the persisted cell keeps its previous
content, the failed write taking no effect, and the in-memory state is
returned unchanged. -/
theorem quota_error_carries_card_count (now : String) (s : CardState)
    (store : Option StorageSchema) :
    persistEffect SetItemOutcome.quotaExceeded now s store =
      (s, store, some (SaveError.quota
        ("Storage limit exceeded. You have too many flashcards. "
          ++ "Please delete some cards or export your collection. "
          ++ "(Current: " ++ toString s.cards.length ++ " cards)"))) ∧
    (∀ m m2 : String, SaveError.quota m ≠ SaveError.security m2) :=
  ⟨rfl, fun _ _ hk => SaveError.noConfusion hk⟩

/-! ## Claim C10: getCurrentCard never goes out of bounds -/

/-- C10.  For every state, getCurrentCard returns none exactly like the
or-null fallback of the source: none whenever currentCardIndex is at or
beyond the visible length, not only when the visible set is empty, and the
card at position currentCardIndex of the visible view otherwise; it never
throws and never yields an out-of-bounds value. -/
theorem current_card_in_bounds_or_none (s : CardState) :
    ((getVisibleCards s).length ≤ s.currentCardIndex → getCurrentCard s = none) ∧
    (∀ h : s.currentCardIndex < (getVisibleCards s).length,
      getCurrentCard s = some ((getVisibleCards s).get ⟨s.currentCardIndex, h⟩)) := by
  constructor
  · intro h
    exact List.getElem?_eq_none h
  · intro h
    simp [getCurrentCard, List.getElem?_eq_getElem h]

/-- C10, witness: with one visible card, cursor 3 gives none and cursor 0
gives that card. -/
theorem current_card_in_bounds_or_none_witness :
    getCurrentCard outOfRangeState = none ∧ getCurrentCard oneCardState = some cardA := by
  constructor
  · exact (current_card_in_bounds_or_none outOfRangeState).1 (by decide)
  · have h := (current_card_in_bounds_or_none oneCardState).2 (by decide)
    rw [h]
    decide

end Flashcards
